import Mathlib

/-
Verification development for the ar-cards-mvp game-plugin lifecycle layer.

This file shallowly embeds the JavaScript source of the repository:
  * src/src/utils/GameRegistry.js   (registry: catalog, selection, instance lifecycle)
  * src/src/utils/GameEngine.js     (two variants of the base engine are present in
                                     the repository; the second, abstract variant is
                                     the one the concrete game extends)
  * src/games/SimpleARGame.js       (SimpleARGameEngine, the concrete engine)

Modelling conventions:
  * JavaScript `Map` objects become insertion-ordered association lists
    (`JsMap.mapSet` mirrors `Map.set`: replace in place, else append).
  * `Date.now()` / `Math.random()` values are passed in as explicit parameters.
  * Methods that `window.dispatchEvent` lifecycle events, or that call
    `notifyObservers`, additionally return the list of publishes they performed.
  * Observer callbacks are fallible functions returning `Except String Unit`;
    the per-callback try/catch of `notifyObservers` is the explicit match in
    `GameEngine.runObs`, which records a caught error message instead of
    propagating it.
  * JavaScript truthiness of defaulting expressions (`x || d`) is modelled
    per type: for strings the empty string is falsy (`jsOrStr`), for numbers
    zero is falsy (`jsOrInt`); arrays and objects are always truthy.
-/

namespace JsMap

/-- Mirrors `Map.set`: replaces the value in place when the key is present
(keeping insertion order, as JavaScript Maps do) and appends otherwise. -/
def mapSet {α : Type} : List (String × α) → String → α → List (String × α)
  | [], k, v => [(k, v)]
  | (k', v') :: rest, k, v =>
      if k' = k then (k, v) :: rest else (k', v') :: mapSet rest k v

/-- Mirrors `Map.get`: the value stored under the key, if any. -/
def mapGet {α : Type} : List (String × α) → String → Option α
  | [], _ => none
  | (k', v') :: rest, k => if k' = k then some v' else mapGet rest k

theorem mapGet_mapSet_self {α : Type} (m : List (String × α)) (k : String) (v : α) :
    mapGet (mapSet m k v) k = some v := by
  induction m with
  | nil => simp [mapSet, mapGet]
  | cons hd tl ih =>
      obtain ⟨k', v'⟩ := hd
      by_cases h : k' = k
      · simp [mapSet, mapGet, h]
      · simp [mapSet, mapGet, h, ih]

theorem mapGet_mapSet_ne {α : Type} (m : List (String × α)) (k k' : String) (v : α)
    (h : k' ≠ k) : mapGet (mapSet m k v) k' = mapGet m k' := by
  induction m with
  | nil => simp [mapSet, mapGet, Ne.symm h]
  | cons hd tl ih =>
      obtain ⟨k0, v0⟩ := hd
      by_cases h0 : k0 = k
      · subst h0
        simp [mapSet, mapGet, Ne.symm h]
      · by_cases h1 : k0 = k'
        · simp [mapSet, mapGet, h0, h1, h]
        · simp [mapSet, mapGet, h0, h1, ih]

end JsMap

/-- JavaScript `o || d` for an optional number field: `undefined` and `0` are
falsy and give the default. -/
def jsOrInt (o : Option Int) (d : Int) : Int :=
  match o with
  | none => d
  | some v => if v = 0 then d else v

/-- JavaScript `o || d` for an optional string field: `undefined` and the empty
string are falsy and give the default. -/
def jsOrStr (o : Option String) (d : String) : String :=
  match o with
  | none => d
  | some s => if s = "" then d else s

/-- A 3D position, as the `{x, y, z}` literals of SimpleARGame.js. -/
structure Pos where
  x : Int
  y : Int
  z : Int
deriving DecidableEq

/-- An entry of `SimpleARGameEngine.placedObjects` (SimpleARGame.js,
`handlePlaceObject`). -/
structure PlacedObject where
  id : String
  playerId : String
  position : Pos
  objType : String
  color : Int
  createdAt : Nat
deriving DecidableEq

/-- A roster entry of the second GameEngine variant: `{id, ...playerData,
joinedAt}`.  The spread player data is kept as an opaque key/value list. -/
structure Player where
  id : String
  attrs : List (String × String)
  joinedAt : Nat
deriving DecidableEq

/-- The object returned by `SimpleARGameEngine.serializeState`. -/
structure Snapshot where
  gameId : String
  gameState : String
  players : List Player
  placedObjects : List PlacedObject
  maxObjects : Int
deriving DecidableEq

/-- The `data` argument of each in-repository `notifyObservers` call site. -/
inductive Payload where
  | empty : Payload
  | playerEv (playerId : String) (player : Player) : Payload
  | stateCh (previousState newState : String) : Payload
  | objectPlaced (object : PlacedObject) (totalObjects : Nat) : Payload
  | objectRemoved (object : PlacedObject) (totalObjects : Nat) : Payload
  | stateRestored (snapshot : Snapshot) : Payload
deriving DecidableEq

/-- The merged event object the second GameEngine variant hands to every
observer: `{gameId, eventType, timestamp, gameState, ...data}`. -/
structure EventData where
  gameId : String
  eventType : String
  timestamp : Nat
  gameState : String
  payload : Payload
deriving DecidableEq

/-- An observer callback; it may throw (`Except.error`). -/
def Callback : Type := EventData → Except String Unit

/-- One `notifyObservers` publish: the event object together with the per
observer delivery outcomes (`none` = callback returned, `some m` = callback
threw and the message `m` was caught and logged by the bus). -/
def NotifyCall : Type := EventData × List (Option String)

namespace GameEngine

/-- State of the second (abstract) GameEngine variant of GameEngine.js,
extended with the two fields `SimpleARGameEngine` adds in its constructor
(`placedObjects`, `maxObjects`).  The base-class methods below never touch
the two subclass fields, as in the source. -/
structure Engine where
  gameId : String
  gameState : String
  observers : List Callback
  players : List Player
  currentPlayer : Option String
  gameData : List (String × String)
  placedObjects : List PlacedObject
  maxObjects : Int

/-- The event object built at the top of `notifyObservers` (lines 426-433). -/
def mkEventData (s : Engine) (eventType : String) (now : Nat) (p : Payload) :
    EventData :=
  { gameId := s.gameId, eventType := eventType, timestamp := now,
    gameState := s.gameState, payload := p }

/-- Outcome of one observer invocation under the bus's try/catch: a thrown
error is caught and logged (`some message`), never propagated. -/
def jsCatch (r : Except String Unit) : Option String :=
  match r with
  | .ok _ => none
  | .error m => some m

/-- The `observers.forEach` loop of `notifyObservers` (lines 437-444): each
callback is invoked with the event object inside its own try/catch, so a throw
is recorded and the loop continues with the remaining callbacks. -/
def runObs : List Callback → EventData → List (Option String)
  | [], _ => []
  | cb :: rest, ed =>
      match cb ed with
      | .ok _ => none :: runObs rest ed
      | .error m => some m :: runObs rest ed

/-- GameEngine.notifyObservers (second variant, lines 426-445).  Returns the
publish record; the function itself never throws. -/
def notifyObservers (s : Engine) (eventType : String) (p : Payload) (now : Nat) :
    NotifyCall :=
  let ed := mkEventData s eventType now p
  (ed, runObs s.observers ed)

/-- GameEngine.setState (lines 384-395): assigns the new state, then publishes
`stateChanged` with `{previousState, newState}`.  Every in-repository call site
passes no additional data. -/
def setState (s : Engine) (newState : String) (now : Nat) : Engine × NotifyCall :=
  let previousState := s.gameState
  let s1 := { s with gameState := newState }
  (s1, notifyObservers s1 "stateChanged" (.stateCh previousState newState) now)

/-- GameEngine.validateState (lines 454-457). -/
def validateState (s : Engine) (expectedStates : List String) : Bool :=
  expectedStates.contains s.gameState

/-- GameEngine.hasPlayer (lines 473-475). -/
def hasPlayer (s : Engine) (playerId : String) : Bool :=
  s.players.any (fun p => p.id = playerId)

/-- GameEngine.addPlayer (second variant, lines 324-343): rejects an id that is
already on the roster (returns false, publishes nothing); otherwise pushes the
player and publishes `playerAdded`. -/
def addPlayer (s : Engine) (playerId : String) (attrs : List (String × String))
    (now : Nat) : Engine × List NotifyCall × Bool :=
  match s.players.find? (fun p => p.id = playerId) with
  | some _ => (s, [], false)
  | none =>
      let player : Player := { id := playerId, attrs := attrs, joinedAt := now }
      let s1 := { s with players := s.players ++ [player] }
      (s1, [notifyObservers s1 "playerAdded" (.playerEv playerId player) now], true)

/-- GameEngine.removePlayer (second variant, lines 349-363): rejects an unknown
id (returns false, publishes nothing); otherwise splices the first matching
player out and publishes `playerRemoved`. -/
def removePlayer (s : Engine) (playerId : String) (now : Nat) :
    Engine × List NotifyCall × Bool :=
  match s.players.find? (fun p => p.id = playerId) with
  | none => (s, [], false)
  | some player =>
      let s1 := { s with players := s.players.eraseP (fun p => p.id = playerId) }
      (s1, [notifyObservers s1 "playerRemoved" (.playerEv playerId player) now], true)

/-- GameEngine.addObserver (lines 403-410); JavaScript `Set.add` appends a
function object not already present; identity of function objects is not
observable here, so the add is modelled as an append. -/
def addObserver (s : Engine) (cb : Callback) : Engine :=
  { s with observers := s.observers ++ [cb] }

/-- GameEngine.cleanup (second variant, lines 493-503), in source order:
`observers.clear()`, `players = []`, `currentPlayer = null`, `gameData = {}`,
then `setState('cleanup')` (whose `stateChanged` publish therefore runs against
the already-emptied observer set). -/
def cleanup (s : Engine) (now : Nat) : Engine × List NotifyCall :=
  let s1 := { s with observers := [], players := [], currentPlayer := none,
                     gameData := [] }
  let r := setState s1 "cleanup" now
  (r.fst, [r.snd])

end GameEngine

namespace SimpleARGameEngine

open GameEngine

/-- The `config` argument of `SimpleARGameEngine.initializeGame`; only
`maxObjects` is read. -/
structure InitConfig where
  maxObjects : Option Int
deriving DecidableEq

/-- The `data` argument of `SimpleARGameEngine.processAction` call sites. -/
structure ActionData where
  position : Option Pos
  objType : Option String
  color : Option Int
  objectId : Option String
deriving DecidableEq

/-- The SimpleARGameEngine constructor: base fields from the GameEngine
constructor (lines 250-261), plus `placedObjects = []`, `maxObjects = 10`. -/
def mk : Engine :=
  { gameId := "simple-ar", gameState := "initialized", observers := [],
    players := [], currentPlayer := none, gameData := [],
    placedObjects := [], maxObjects := 10 }

/-- SimpleARGameEngine.initializeGame (SimpleARGame.js lines 20-28):
`maxObjects = config.maxObjects || 10`, `placedObjects = []`,
`setState('playing')`, returns true. -/
def initializeGame (cfg : InitConfig) (s : Engine) (now : Nat) :
    Engine × List NotifyCall × Bool :=
  let s1 := { s with maxObjects := jsOrInt cfg.maxObjects 10, placedObjects := [] }
  let r := setState s1 "playing" now
  (r.fst, [r.snd], true)

/-- SimpleARGameEngine.handlePlaceObject (lines 51-76): rejects when
`placedObjects.length >= maxObjects`; otherwise builds the object (with the
generated id and the defaulted position/type/color), pushes it and publishes
`objectPlaced`. -/
def handlePlaceObject (s : Engine) (playerId : String) (d : ActionData)
    (now : Nat) (rnd : String) (rndColor : Int) : Engine × List NotifyCall × Bool :=
  if (s.placedObjects.length : Int) ≥ s.maxObjects then (s, [], false)
  else
    let objectId := "obj_" ++ toString now ++ "_" ++ rnd
    let obj : PlacedObject :=
      { id := objectId, playerId := playerId,
        position := d.position.getD { x := 0, y := 0, z := 0 },
        objType := d.objType.getD "cube",
        color := jsOrInt d.color rndColor, createdAt := now }
    let s1 := { s with placedObjects := s.placedObjects ++ [obj] }
    (s1, [notifyObservers s1 "objectPlaced"
            (.objectPlaced obj s1.placedObjects.length) now], true)

/-- SimpleARGameEngine.handleRemoveObject (lines 78-94): rejects when no placed
object carries `data.objectId`; otherwise splices the first match out and
publishes `objectRemoved`. -/
def handleRemoveObject (s : Engine) (d : ActionData) (now : Nat) :
    Engine × List NotifyCall × Bool :=
  match s.placedObjects.find? (fun o => some o.id = d.objectId) with
  | none => (s, [], false)
  | some obj =>
      let s1 := { s with placedObjects :=
                    s.placedObjects.eraseP (fun o => some o.id = d.objectId) }
      (s1, [notifyObservers s1 "objectRemoved"
              (.objectRemoved obj s1.placedObjects.length) now], true)

/-- SimpleARGameEngine.processAction (lines 30-49): gated on
`validateState(['playing'])`, then dispatches on the action name; anything
unknown returns false. -/
def processAction (s : Engine) (playerId : String) (action : String)
    (d : ActionData) (now : Nat) (rnd : String) (rndColor : Int) :
    Engine × List NotifyCall × Bool :=
  if ¬ validateState s ["playing"] then (s, [], false)
  else if action = "placeObject" then handlePlaceObject s playerId d now rnd rndColor
  else if action = "removeObject" then handleRemoveObject s d now
  else (s, [], false)

/-- SimpleARGameEngine.serializeState (lines 114-122). -/
def serializeState (s : Engine) : Snapshot :=
  { gameId := s.gameId, gameState := s.gameState, players := s.players,
    placedObjects := s.placedObjects, maxObjects := s.maxObjects }

/-- SimpleARGameEngine.deserializeState (lines 124-131): assigns
`gameState`, `players = snap.players || []`, `placedObjects =
snap.placedObjects || []` (arrays are always truthy, so snapshot arrays are
taken as-is), `maxObjects = snap.maxObjects || 10` (zero is falsy), then
publishes `stateRestored`. -/
def deserializeState (s : Engine) (snap : Snapshot) (now : Nat) :
    Engine × NotifyCall :=
  let s1 := { s with gameState := snap.gameState, players := snap.players,
                     placedObjects := snap.placedObjects,
                     maxObjects := if snap.maxObjects = 0 then 10 else snap.maxObjects }
  (s1, notifyObservers s1 "stateRestored" (.stateRestored snap) now)

/-- One element of a `processAction` call sequence. -/
structure ActionCall where
  playerId : String
  action : String
  data : ActionData
  now : Nat
  rnd : String
  rndColor : Int

/-- Folds a sequence of `processAction` calls over an engine state. -/
def runActions (s : Engine) (calls : List ActionCall) : Engine :=
  calls.foldl
    (fun e c => (processAction e c.playerId c.action c.data c.now c.rnd c.rndColor).fst)
    s

/-- Engine states reachable from the SimpleARGameEngine constructor through
the engine's public operations. -/
inductive Reachable : Engine → Prop where
  | ctor : Reachable mk
  | init (cfg : InitConfig) (now : Nat) {e : Engine} :
      Reachable e → Reachable (initializeGame cfg e now).fst
  | act (pid a : String) (d : ActionData) (now : Nat) (rnd : String)
      (rc : Int) {e : Engine} :
      Reachable e → Reachable (processAction e pid a d now rnd rc).fst
  | add (pid : String) (attrs : List (String × String)) (now : Nat) {e : Engine} :
      Reachable e → Reachable (GameEngine.addPlayer e pid attrs now).fst
  | rem (pid : String) (now : Nat) {e : Engine} :
      Reachable e → Reachable (GameEngine.removePlayer e pid now).fst
  | clean (now : Nat) {e : Engine} :
      Reachable e → Reachable (GameEngine.cleanup e now).fst
  | deser (snap : Snapshot) (now : Nat) {e : Engine} :
      Reachable e → Reachable (deserializeState e snap now).fst
  | setSt (ns : String) (now : Nat) {e : Engine} :
      Reachable e → Reachable (GameEngine.setState e ns now).fst
  | obs (cb : Callback) {e : Engine} :
      Reachable e → Reachable (GameEngine.addObserver e cb)

end SimpleARGameEngine

namespace GameEngineV1

/-- A roster entry of the first GameEngine variant: `{id, joinedAt, ...playerData}`
(lines 73-78). -/
structure PlayerV1 where
  id : String
  joinedAt : Nat
  attrs : List (String × String)
deriving DecidableEq

/-- The `data` argument of the first variant's `notifyObservers` call sites. -/
inductive PayloadV1 where
  | empty : PayloadV1
  | playerEv (playerId : String) (player : PlayerV1) : PayloadV1
  | stateCh (oldState newState : String) : PayloadV1
deriving DecidableEq

/-- The data object the first variant hands to every observer:
`{...data, gameId}` (line 60). -/
structure EventDataV1 where
  payload : PayloadV1
  gameId : String
deriving DecidableEq

/-- An observer of the first variant, called as `observer(event, data)`; it may
throw. -/
def CallbackV1 : Type := String → EventDataV1 → Except String Unit

/-- One publish of the first variant: event name, data object, and per-observer
delivery outcomes. -/
def NotifyCallV1 : Type := (String × EventDataV1) × List (Option String)

/-- State of the first GameEngine variant (GameEngine.js lines 7-19). -/
structure EngineV1 where
  gameId : String
  state : String
  players : List (String × PlayerV1)
  observers : List CallbackV1
  lastUpdateTime : Nat
  isRunning : Bool

/-- The `observers.forEach` loop of the first variant's `notifyObservers`
(lines 58-65): per-callback try/catch, errors caught and logged. -/
def runObsV1 : List CallbackV1 → String → EventDataV1 → List (Option String)
  | [], _, _ => []
  | cb :: rest, ev, ed =>
      match cb ev ed with
      | .ok _ => none :: runObsV1 rest ev ed
      | .error m => some m :: runObsV1 rest ev ed

/-- GameEngine.notifyObservers (first variant, lines 55-66). -/
def notifyObservers (s : EngineV1) (event : String) (p : PayloadV1) :
    NotifyCallV1 :=
  let ed : EventDataV1 := { payload := p, gameId := s.gameId }
  ((event, ed), runObsV1 s.observers event ed)

/-- GameEngine.addPlayer (first variant, lines 73-85): builds the player,
stores it with `Map.set` (overwriting any existing entry for the id),
publishes `playerAdded`, and returns the player object. -/
def addPlayer (s : EngineV1) (playerId : String) (attrs : List (String × String))
    (now : Nat) : EngineV1 × List NotifyCallV1 × PlayerV1 :=
  let player : PlayerV1 := { id := playerId, joinedAt := now, attrs := attrs }
  let s1 := { s with players := JsMap.mapSet s.players playerId player }
  (s1, [notifyObservers s1 "playerAdded" (.playerEv playerId player)], player)

end GameEngineV1

namespace GameRegistry

/-- Lifecycle notifications the registry dispatches via
`window.dispatchEvent(new CustomEvent(...))`. -/
inductive GEvent where
  | gameSelected (gameId : String) (previousGameId : Option String) : GEvent
  | gameInstanceCreated (gameId : String) : GEvent
  | gameSessionStarted (gameId : String) : GEvent
  | gameSessionEnded (gameId : String) : GEvent
  | gameInstanceCleaned (gameId : String) : GEvent
deriving DecidableEq

/-- The engine object of an active instance, as seen by the registry: whether
it has a `cleanup` method and whether that call throws. -/
structure EngineObj where
  hasCleanup : Bool
  cleanupThrows : Bool
deriving DecidableEq

/-- The interface object of an active instance, as seen by the registry:
its `isActive` flag, whether it has a `cleanup` method, and whether its
`endSession`/`cleanup` calls throw. -/
structure IfaceObj where
  isActive : Bool
  hasCleanup : Bool
  endSessionThrows : Bool
  cleanupThrows : Bool
deriving DecidableEq

/-- Outcome of invoking a descriptor's async factory (`game.createGame()`),
as classified by `createGameInstance` (lines 178-181): it may throw, resolve
to null, or resolve to an object missing `engine` or `interface`; otherwise it
yields an engine/interface pair. -/
inductive FactoryResult where
  | throws (msg : String) : FactoryResult
  | nullResult : FactoryResult
  | missingEngine : FactoryResult
  | missingInterface : FactoryResult
  | ok (engine : EngineObj) (iface : IfaceObj) : FactoryResult
deriving DecidableEq

/-- The argument of `registerGame` (optional fields are defaulted by the
normalization at lines 78-89; for strings the empty string is falsy and also
triggers the default). -/
structure GameConfig where
  id : String
  name : String
  description : Option String
  isPlayable : Bool
  players : Option String
  difficulty : Option String
  estimatedTime : Option String
  category : Option String
  createGame : Option FactoryResult
deriving DecidableEq

/-- A stored catalog descriptor (the normalized object of lines 78-89). -/
structure Game where
  id : String
  name : String
  description : String
  isPlayable : Bool
  players : String
  difficulty : String
  estimatedTime : String
  category : String
  createGame : Option FactoryResult
  registeredAt : Nat
deriving DecidableEq

/-- The normalization performed inside `registerGame` (lines 78-89). -/
def normalizeGame (cfg : GameConfig) (now : Nat) : Game :=
  { id := cfg.id, name := cfg.name,
    description := jsOrStr cfg.description "No description available",
    isPlayable := cfg.isPlayable,
    players := jsOrStr cfg.players "1",
    difficulty := jsOrStr cfg.difficulty "Unknown",
    estimatedTime := jsOrStr cfg.estimatedTime "Unknown",
    category := jsOrStr cfg.category "General",
    createGame := cfg.createGame, registeredAt := now }

/-- The `this.activeGame` record built at lines 184-190. -/
structure ActiveGame where
  gameId : String
  game : Game
  engine : EngineObj
  interface : IfaceObj
  createdAt : Nat
deriving DecidableEq

/-- GameRegistry state (constructor, lines 4-14). -/
structure Registry where
  games : List (String × Game)
  selectedGameId : Option String
  activeGame : Option ActiveGame
deriving DecidableEq

/-- The registry as constructed, before `initializeGames` runs. -/
def emptyRegistry : Registry :=
  { games := [], selectedGameId := none, activeGame := none }

/-- GameRegistry.registerGame (lines 73-95): throws when `id` or `name` is
missing (falsy); otherwise stores the normalized descriptor with `Map.set`
and returns true. -/
def registerGame (cfg : GameConfig) (now : Nat) (r : Registry) :
    Except String (Registry × Bool) :=
  if cfg.id = "" ∨ cfg.name = "" then
    .error "Game registration requires id and name"
  else
    .ok ({ r with games := JsMap.mapSet r.games cfg.id (normalizeGame cfg now) }, true)

/-- GameRegistry.selectGame (lines 113-135): false for an unknown id; on
success updates `selectedGameId` and dispatches `gameSelected` with the new
and previous selection. -/
def selectGame (gameId : String) (r : Registry) : Registry × List GEvent × Bool :=
  match JsMap.mapGet r.games gameId with
  | none => (r, [], false)
  | some _ =>
      let previousSelection := r.selectedGameId
      ({ r with selectedGameId := some gameId },
       [.gameSelected gameId previousSelection], true)

/-- GameRegistry.getSelectedGame (lines 137-143). -/
def getSelectedGame (r : Registry) : Option Game :=
  match r.selectedGameId with
  | none => none
  | some sid => JsMap.mapGet r.games sid

/-- Steps observable during `createGameInstance`/`cleanupActiveGame`: calls
into the active instance's interface/engine, the factory invocation, and the
dispatched lifecycle events. -/
inductive TraceItem where
  | callEndSession : TraceItem
  | callIfaceCleanup : TraceItem
  | callEngineCleanup : TraceItem
  | factoryInvoked : TraceItem
  | dispatched (e : GEvent) : TraceItem
deriving DecidableEq

/-- The lifecycle events contained in a trace, in order. -/
def dispatchedOf (tr : List TraceItem) : List GEvent :=
  tr.filterMap (fun t => match t with
    | .dispatched e => some e
    | _ => none)

/-- GameRegistry.cleanupActiveGame (lines 292-329): no-op without an active
instance; otherwise, inside a try/catch that swallows errors (keeping the
effects already performed): end the session if the interface is active, call
`interface.cleanup()` if present, call `engine.cleanup()` if present, clear
`activeGame`, and dispatch `gameInstanceCleaned`.  A throwing step stops the
remaining steps, so a throw before the clearing leaves `activeGame` set and
dispatches nothing. -/
def cleanupActiveGame (r : Registry) : Registry × List TraceItem :=
  match r.activeGame with
  | none => (r, [])
  | some ag =>
      let tr0 : List TraceItem :=
        if ag.interface.isActive then [.callEndSession] else []
      if ag.interface.isActive && ag.interface.endSessionThrows then (r, tr0)
      else
        let tr1 := if ag.interface.hasCleanup then tr0 ++ [.callIfaceCleanup] else tr0
        if ag.interface.hasCleanup && ag.interface.cleanupThrows then (r, tr1)
        else
          let tr2 := if ag.engine.hasCleanup then tr1 ++ [.callEngineCleanup] else tr1
          if ag.engine.hasCleanup && ag.engine.cleanupThrows then (r, tr2)
          else
            ({ r with activeGame := none },
             tr2 ++ [.dispatched (.gameInstanceCleaned ag.gameId)])

/-- JavaScript truthiness of `gameId || this.selectedGameId` operands:
`null`/`undefined` and the empty string are falsy. -/
def jsTruthyOpt (o : Option String) : Bool :=
  match o with
  | none => false
  | some s => s ≠ ""

/-- GameRegistry.createGameInstance (lines 150-210): resolves the target id
(argument or current selection), fails on no/unknown/unplayable/factory-less
game; otherwise tears down any existing active instance via
`cleanupActiveGame`, invokes the factory, validates the result, stores the
new `activeGame` and dispatches `gameInstanceCreated`.  A throwing factory,
a null result, or a result missing `engine`/`interface` is caught and the
call resolves to null. -/
def createGameInstance (gameId : Option String) (r : Registry) (now : Nat) :
    Registry × List TraceItem × Option ActiveGame :=
  let targetGameId := if jsTruthyOpt gameId then gameId else r.selectedGameId
  match targetGameId with
  | none => (r, [], none)
  | some t =>
      if t = "" then (r, [], none)
      else
        match JsMap.mapGet r.games t with
        | none => (r, [], none)
        | some g =>
            if ¬ g.isPlayable then (r, [], none)
            else
              match g.createGame with
              | none => (r, [], none)
              | some fres =>
                  let c := if r.activeGame.isSome then cleanupActiveGame r
                           else (r, [])
                  let tr2 := c.snd ++ [TraceItem.factoryInvoked]
                  match fres with
                  | .throws _ => (c.fst, tr2, none)
                  | .nullResult => (c.fst, tr2, none)
                  | .missingEngine => (c.fst, tr2, none)
                  | .missingInterface => (c.fst, tr2, none)
                  | .ok eng ifc =>
                      let ag : ActiveGame :=
                        { gameId := t, game := g, engine := eng,
                          interface := ifc, createdAt := now }
                      ({ c.fst with activeGame := some ag },
                       tr2 ++ [.dispatched (.gameInstanceCreated t)], some ag)

end GameRegistry

open JsMap GameRegistry

/-- A minimal registration argument: id "a", name "Alpha". -/
def cfgA : GameConfig :=
  { id := "a", name := "Alpha", description := none, isPlayable := true,
    players := none, difficulty := none, estimatedTime := none,
    category := none, createGame := none }

/-- A second registration argument reusing the id "a" with a different name. -/
def cfgA2 : GameConfig :=
  { cfgA with name := "Beta" }

/-- The registry after registering `cfgA` at time 0. -/
def c1r1 : Registry :=
  { games := [("a", normalizeGame cfgA 0)], selectedGameId := none,
    activeGame := none }

/-- C1, counterexample.  The claim says a `registerGame` call whose descriptor
reuses an existing `id` is rejected and the originally stored descriptor is
retained.  In the code (GameRegistry.js lines 73-95) the duplicate call
succeeds (returns true) and `Map.set` replaces the stored descriptor: after
registering id "a" with name "Alpha" and then id "a" with name "Beta", the
catalog holds the "Beta" descriptor, not the original. -/
theorem C1_duplicate_id_overwrites_counterexample :
    registerGame cfgA 0 emptyRegistry = .ok (c1r1, true) ∧
    registerGame cfgA2 1 c1r1 =
      .ok ({ games := [("a", normalizeGame cfgA2 1)], selectedGameId := none,
             activeGame := none }, true) ∧
    mapGet c1r1.games "a" = some (normalizeGame cfgA 0) ∧
    normalizeGame cfgA2 1 ≠ normalizeGame cfgA 0 := by
  refine ⟨by rfl, by rfl, by decide, by decide⟩

/-- C1, amended.  `registerGame` rejects (by throwing) only a missing `id` or
`name`; a call whose descriptor carries an `id` already present in the catalog
is accepted: it returns true and replaces the stored descriptor with the
normalized new one, leaving every other catalog entry unchanged. -/
theorem C1_registerGame_duplicate_replaces (r : Registry) (cfg : GameConfig)
    (now : Nat) (old : Game)
    (hid : cfg.id ≠ "") (hname : cfg.name ≠ "")
    (hdup : mapGet r.games cfg.id = some old) :
    registerGame cfg now r =
      .ok ({ r with games := mapSet r.games cfg.id (normalizeGame cfg now) }, true) ∧
    mapGet (mapSet r.games cfg.id (normalizeGame cfg now)) cfg.id
      = some (normalizeGame cfg now) ∧
    ∀ k, k ≠ cfg.id →
      mapGet (mapSet r.games cfg.id (normalizeGame cfg now)) k = mapGet r.games k := by
  refine ⟨?_, mapGet_mapSet_self _ _ _, fun k hk => mapGet_mapSet_ne _ _ _ _ hk⟩
  simp [registerGame, hid, hname]

/-- Witness for C1's amended theorem: registering id "a" a second time on the
concrete registry `c1r1` succeeds and stores the new descriptor. -/
theorem C1_registerGame_duplicate_replaces_witness :
    registerGame cfgA2 1 c1r1 =
      .ok ({ c1r1 with games := mapSet c1r1.games "a" (normalizeGame cfgA2 1) }, true) ∧
    mapGet (mapSet c1r1.games "a" (normalizeGame cfgA2 1)) "a"
      = some (normalizeGame cfgA2 1) :=
  ⟨(C1_registerGame_duplicate_replaces c1r1 cfgA2 1 (normalizeGame cfgA 0)
      (by decide) (by decide) (by decide)).1,
   (C1_registerGame_duplicate_replaces c1r1 cfgA2 1 (normalizeGame cfgA 0)
      (by decide) (by decide) (by decide)).2.1⟩

/-- C6.  For a registered id, `selectGame` returns true and a subsequent
`getSelectedGame()` returns the descriptor stored under that id; for an id not
in the catalog, `selectGame` returns false, leaves the registry (in particular
`selectedGameId`) unchanged, and hence `getSelectedGame()` unchanged. -/
theorem C6_selectGame_getSelectedGame (r : Registry) (gameId : String) :
    (∀ g, mapGet r.games gameId = some g →
        (selectGame gameId r).snd.snd = true ∧
        getSelectedGame (selectGame gameId r).fst = some g) ∧
    (mapGet r.games gameId = none →
        (selectGame gameId r).snd.snd = false ∧
        (selectGame gameId r).fst = r ∧
        getSelectedGame (selectGame gameId r).fst = getSelectedGame r) := by
  constructor
  · intro g hg
    simp [selectGame, hg, getSelectedGame]
  · intro hn
    simp [selectGame, hn]

/-- Witness for C6 on a concrete registry: selecting the registered id "a"
succeeds and yields its descriptor; selecting the unknown id "zz" fails and
leaves the registry untouched. -/
theorem C6_selectGame_getSelectedGame_witness :
    ((selectGame "a" c1r1).snd.snd = true ∧
      getSelectedGame (selectGame "a" c1r1).fst = some (normalizeGame cfgA 0)) ∧
    ((selectGame "zz" c1r1).snd.snd = false ∧
      (selectGame "zz" c1r1).fst = c1r1 ∧
      getSelectedGame (selectGame "zz" c1r1).fst = getSelectedGame c1r1) :=
  ⟨(C6_selectGame_getSelectedGame c1r1 "a").1 (normalizeGame cfgA 0) (by decide),
   (C6_selectGame_getSelectedGame c1r1 "zz").2 (by decide)⟩

/-- An observer callback that returns normally. -/
def obsOk : Callback := fun _ => .ok ()

/-- A concrete engine with one subscribed observer and one player. -/
def c2engine : GameEngine.Engine :=
  { gameId := "simple-ar", gameState := "initialized", observers := [obsOk],
    players := [{ id := "p1", attrs := [], joinedAt := 0 }],
    currentPlayer := none, gameData := [], placedObjects := [],
    maxObjects := 10 }

/-- C2, counterexample.  The claim says `cleanup()` clears the roster and
game-data, sets state to `cleanup` (notifying observers), publishes a final
`cleanup` event to the still-subscribed observers, and only then drops the
subscribers.  In the code (GameEngine.js lines 493-503) `observers.clear()`
runs first, so on an engine with one subscribed observer the state does reach
`cleanup` while: the only publish performed is a `stateChanged` (no event of
type `cleanup` is ever published), that publish happens after the subscribers
were dropped, and it is delivered to nobody — the observer is never notified
of cleanup. -/
theorem C2_cleanup_drops_observers_first_counterexample :
    (GameEngine.cleanup c2engine 5).fst.gameState = "cleanup" ∧
    c2engine.observers.length = 1 ∧
    ((GameEngine.cleanup c2engine 5).snd.map (fun c => c.fst.eventType))
      = ["stateChanged"] ∧
    ((GameEngine.cleanup c2engine 5).snd.map (fun c => c.snd)) = [[]] :=
  ⟨rfl, rfl, rfl, rfl⟩

/-- C2, amended.  `cleanup()` (second variant) performs its steps in the
order: drop all subscribers, clear the player roster, clear the current
player and game-data, then set state to `cleanup`; the resulting single
`stateChanged` publish therefore runs against the already-emptied subscriber
set and is delivered to no observer, no event of type `cleanup` is published,
and every later publish on the cleaned engine also delivers to nobody. -/
theorem C2_cleanup_order (s : GameEngine.Engine) (now : Nat) :
    (GameEngine.cleanup s now).fst.observers = [] ∧
    (GameEngine.cleanup s now).fst.players = [] ∧
    (GameEngine.cleanup s now).fst.currentPlayer = none ∧
    (GameEngine.cleanup s now).fst.gameData = [] ∧
    (GameEngine.cleanup s now).fst.gameState = "cleanup" ∧
    ((GameEngine.cleanup s now).snd.map (fun c => c.fst.eventType))
      = ["stateChanged"] ∧
    ((GameEngine.cleanup s now).snd.map (fun c => c.snd)) = [[]] ∧
    (∀ (et : String) (p : Payload) (n2 : Nat),
        (GameEngine.notifyObservers (GameEngine.cleanup s now).fst et p n2).snd = []) :=
  ⟨rfl, rfl, rfl, rfl, rfl, rfl, rfl, fun _ _ _ => rfl⟩

theorem runObs_eq_map (obs : List Callback) (ed : EventData) :
    GameEngine.runObs obs ed = obs.map (fun cb => GameEngine.jsCatch (cb ed)) := by
  induction obs with
  | nil => rfl
  | cons cb rest ih =>
      cases h : cb ed <;> simp [GameEngine.runObs, GameEngine.jsCatch, h, ih]

theorem runObsV1_eq_map (obs : List GameEngineV1.CallbackV1) (ev : String)
    (ed : GameEngineV1.EventDataV1) :
    GameEngineV1.runObsV1 obs ev ed
      = obs.map (fun cb => GameEngine.jsCatch (cb ev ed)) := by
  induction obs with
  | nil => rfl
  | cons cb rest ih =>
      cases h : cb ev ed <;> simp [GameEngineV1.runObsV1, GameEngine.jsCatch, h, ih]

/-- C4.  In both `notifyObservers` variants each currently-subscribed callback
is invoked with the (same) event object inside its own try/catch: the delivery
list always has one outcome per subscriber, each outcome is that callback's
own caught result (`jsCatch`), independent of whether earlier callbacks threw,
and the publish itself returns a value rather than propagating any error.  In
particular, with two subscribers whose first throws, the second still receives
the event. -/
theorem C4_observer_isolation :
    (∀ (obs : List Callback) (ed : EventData),
        GameEngine.runObs obs ed = obs.map (fun cb => GameEngine.jsCatch (cb ed))) ∧
    (∀ (cb2 : Callback) (m : String) (ed : EventData),
        GameEngine.runObs [fun _ => .error m, cb2] ed
          = [some m, GameEngine.jsCatch (cb2 ed)]) ∧
    (∀ (s : GameEngine.Engine) (et : String) (p : Payload) (now : Nat),
        (GameEngine.notifyObservers s et p now).snd.length = s.observers.length) ∧
    (∀ (obs : List GameEngineV1.CallbackV1) (ev : String)
        (ed : GameEngineV1.EventDataV1),
        GameEngineV1.runObsV1 obs ev ed
          = obs.map (fun cb => GameEngine.jsCatch (cb ev ed))) := by
  refine ⟨runObs_eq_map, ?_, ?_, runObsV1_eq_map⟩
  · intro cb2 m ed
    simp [runObs_eq_map, GameEngine.jsCatch]
  · intro s et p now
    simp [GameEngine.notifyObservers, runObs_eq_map]

/-- C5.  After `cleanup()` has returned on the concrete SimpleARGameEngine,
any subsequent `processAction` call — for every player id, action name and
data — returns false, leaves the engine state exactly as cleanup left it,
and performs no publish (and cannot throw, being total).  The `cleanup` state
fails the `validateState(['playing'])` gate at the top of `processAction`. -/
theorem C5_processAction_inert_after_cleanup (s : GameEngine.Engine) (now : Nat)
    (playerId action : String) (d : SimpleARGameEngine.ActionData)
    (now2 : Nat) (rnd : String) (rndColor : Int) :
    SimpleARGameEngine.processAction (GameEngine.cleanup s now).fst
        playerId action d now2 rnd rndColor
      = ((GameEngine.cleanup s now).fst, [], false) := by
  simp [SimpleARGameEngine.processAction, GameEngine.validateState,
        GameEngine.cleanup, GameEngine.setState]

theorem hasPlayer_iff_find (s : GameEngine.Engine) (pid : String) :
    GameEngine.hasPlayer s pid = true
      ↔ (s.players.find? (fun p => p.id = pid)).isSome := by
  simp [GameEngine.hasPlayer, List.any_eq_true, List.find?_isSome]

/-- The roster entry stored by the first GameEngine variant for player "p1"
before the duplicate call. -/
def oldP1 : GameEngineV1.PlayerV1 := { id := "p1", joinedAt := 0, attrs := [] }

/-- A concrete first-variant engine whose roster already holds "p1". -/
def v1engine : GameEngineV1.EngineV1 :=
  { gameId := "simple-ar", state := "initialized", players := [("p1", oldP1)],
    observers := [], lastUpdateTime := 0, isRunning := false }

/-- C8, counterexample.  The claim says that for every GameEngine an
`addPlayer` call for an id already in the roster returns false and publishes
no event.  The first GameEngine variant (GameEngine.js lines 73-85) never
checks for an existing id: on an engine already holding "p1", adding "p1"
again publishes a `playerAdded` event, overwrites the stored roster entry,
and returns the new player object rather than false. -/
theorem C8_addPlayer_v1_counterexample :
    ((GameEngineV1.addPlayer v1engine "p1" [] 7).snd.fst.map (fun c => c.fst.fst))
      = ["playerAdded"] ∧
    mapGet (GameEngineV1.addPlayer v1engine "p1" [] 7).fst.players "p1"
      = some { id := "p1", joinedAt := 7, attrs := [] } ∧
    (GameEngineV1.addPlayer v1engine "p1" [] 7).snd.snd
      = { id := "p1", joinedAt := 7, attrs := [] } :=
  ⟨rfl, by decide, rfl⟩

/-- C8, amended.  For the second (abstract) GameEngine variant — the one the
concrete game extends — the claim holds as stated: `addPlayer` for an id
already in the roster returns false and publishes nothing; `removePlayer` for
an unknown id returns false and publishes nothing; a successful `addPlayer`
publishes exactly one `playerAdded` and a successful `removePlayer` exactly
one `playerRemoved`.  In the first (superseded) variant, `addPlayer` instead
overwrites an existing id and always publishes `playerAdded`. -/
theorem C8_player_roster_events (s : GameEngine.Engine) (pid : String)
    (attrs : List (String × String)) (now : Nat) :
    (GameEngine.hasPlayer s pid = true →
        GameEngine.addPlayer s pid attrs now = (s, [], false)) ∧
    (GameEngine.hasPlayer s pid = false →
        (GameEngine.addPlayer s pid attrs now).snd.snd = true ∧
        ((GameEngine.addPlayer s pid attrs now).snd.fst.map
            (fun c => c.fst.eventType)) = ["playerAdded"]) ∧
    (GameEngine.hasPlayer s pid = false →
        GameEngine.removePlayer s pid now = (s, [], false)) ∧
    (GameEngine.hasPlayer s pid = true →
        (GameEngine.removePlayer s pid now).snd.snd = true ∧
        ((GameEngine.removePlayer s pid now).snd.fst.map
            (fun c => c.fst.eventType)) = ["playerRemoved"]) := by
  have hiff := hasPlayer_iff_find s pid
  refine ⟨?_, ?_, ?_, ?_⟩
  · intro h
    rcases Option.isSome_iff_exists.mp (hiff.mp h) with ⟨player, hf⟩
    simp [GameEngine.addPlayer, hf]
  · intro h
    have hf : s.players.find? (fun p => p.id = pid) = none := by
      by_contra hne
      have hs := hiff.mpr (Option.ne_none_iff_isSome.mp hne)
      rw [h] at hs
      exact Bool.false_ne_true hs
    simp [GameEngine.addPlayer, GameEngine.notifyObservers,
          GameEngine.mkEventData, hf]
  · intro h
    have hf : s.players.find? (fun p => p.id = pid) = none := by
      by_contra hne
      have hs := hiff.mpr (Option.ne_none_iff_isSome.mp hne)
      rw [h] at hs
      exact Bool.false_ne_true hs
    simp [GameEngine.removePlayer, hf]
  · intro h
    rcases Option.isSome_iff_exists.mp (hiff.mp h) with ⟨player, hf⟩
    simp [GameEngine.removePlayer, GameEngine.notifyObservers,
          GameEngine.mkEventData, hf]

/-- Witness for C8's amended theorem on the concrete engine `c2engine`
(roster = ["p1"]): duplicate add of "p1" and removal of the unknown "p2" are
rejected without events; adding "p2" and removing "p1" succeed with exactly
one `playerAdded` / `playerRemoved` publish. -/
theorem C8_player_roster_events_witness :
    (GameEngine.addPlayer c2engine "p1" [] 9 = (c2engine, [], false)) ∧
    ((GameEngine.addPlayer c2engine "p2" [] 9).snd.snd = true ∧
      ((GameEngine.addPlayer c2engine "p2" [] 9).snd.fst.map
          (fun c => c.fst.eventType)) = ["playerAdded"]) ∧
    (GameEngine.removePlayer c2engine "p2" 9 = (c2engine, [], false)) ∧
    ((GameEngine.removePlayer c2engine "p1" 9).snd.snd = true ∧
      ((GameEngine.removePlayer c2engine "p1" 9).snd.fst.map
          (fun c => c.fst.eventType)) = ["playerRemoved"]) :=
  ⟨(C8_player_roster_events c2engine "p1" [] 9).1 (by decide),
   (C8_player_roster_events c2engine "p2" [] 9).2.1 (by decide),
   (C8_player_roster_events c2engine "p2" [] 9).2.2.1 (by decide),
   (C8_player_roster_events c2engine "p1" [] 9).2.2.2 (by decide)⟩

/-- An instance engine whose `cleanup` method exists and returns normally. -/
def engOk : EngineObj := { hasCleanup := true, cleanupThrows := false }

/-- An instance interface that is not active and whose methods exist and
return normally. -/
def ifcIdle : IfaceObj :=
  { isActive := false, hasCleanup := true, endSessionThrows := false,
    cleanupThrows := false }

/-- A previously created active instance with well-behaved teardown. -/
def agOld : ActiveGame :=
  { gameId := "old", game := normalizeGame cfgA 0, engine := engOk,
    interface := ifcIdle, createdAt := 0 }

/-- An unplayable catalog descriptor (`isPlayable=false`, no factory), like
the registered "uno-ar" placeholder. -/
def gameUno : Game :=
  normalizeGame
    { id := "uno-ar", name := "UNO AR", description := none,
      isPlayable := false, players := none, difficulty := none,
      estimatedTime := none, category := none, createGame := none } 0

/-- A registry with an active instance whose current selection is the
unplayable "uno-ar". -/
def c3reg : Registry :=
  { games := [("uno-ar", gameUno)], selectedGameId := some "uno-ar",
    activeGame := some agOld }

/-- C3, counterexample.  The claim says every `createGameInstance` call made
while an instance is active emits exactly one `gameInstanceCleaned` followed
by exactly one `gameInstanceCreated` before resolving.  Calling
`createGameInstance()` while an instance is active but the selection is the
unplayable "uno-ar" returns null before any teardown: no event at all is
emitted and the old instance is not torn down. -/
theorem C3_unplayable_no_events_counterexample :
    c3reg.activeGame.isSome = true ∧
    createGameInstance none c3reg 5 = (c3reg, [], none) ∧
    dispatchedOf (createGameInstance none c3reg 5).snd.fst = [] := by
  refine ⟨rfl, by decide, by decide⟩

/-- The interface/engine calls `cleanupActiveGame` performs before clearing
the active slot: `endSession()` when the interface is active, then
`interface.cleanup()` and `engine.cleanup()` when present. -/
def teardownCalls (ag : ActiveGame) : List TraceItem :=
  (if ag.interface.isActive then [.callEndSession] else []) ++
  (if ag.interface.hasCleanup then [.callIfaceCleanup] else []) ++
  (if ag.engine.hasCleanup then [.callEngineCleanup] else [])

theorem dispatchedOf_teardownCalls (ag : ActiveGame) :
    dispatchedOf (teardownCalls ag) = [] := by
  cases hA : ag.interface.isActive <;> cases hB : ag.interface.hasCleanup <;>
    cases hC : ag.engine.hasCleanup <;>
      simp [teardownCalls, dispatchedOf, hA, hB, hC]

theorem cleanupActiveGame_no_throw (r : Registry) (ag : ActiveGame)
    (hag : r.activeGame = some ag)
    (hE : ag.interface.endSessionThrows = false)
    (hI : ag.interface.cleanupThrows = false)
    (hG : ag.engine.cleanupThrows = false) :
    cleanupActiveGame r =
      ({ r with activeGame := none },
       teardownCalls ag ++ [.dispatched (.gameInstanceCleaned ag.gameId)]) := by
  cases hA : ag.interface.isActive <;> cases hB : ag.interface.hasCleanup <;>
    cases hC : ag.engine.hasCleanup <;>
      simp [cleanupActiveGame, teardownCalls, hag, hE, hI, hG, hA, hB, hC]

/-- C3, amended.  For every `createGameInstance` call made while an instance
is active, provided the old instance's teardown calls do not throw and the
call succeeds (here: the target id names a playable descriptor whose factory
yields a valid engine/interface pair), the old instance's full teardown —
ending with the `gameInstanceCleaned` dispatch — completes before the factory
constructing the new instance is invoked, and exactly one
`gameInstanceCleaned` followed by exactly one `gameInstanceCreated` is
dispatched before the call resolves. -/
theorem C3_cleaned_then_created (r : Registry) (t : String) (g : Game)
    (eng : EngineObj) (ifc : IfaceObj) (ag : ActiveGame) (now : Nat)
    (hag : r.activeGame = some ag)
    (hE : ag.interface.endSessionThrows = false)
    (hI : ag.interface.cleanupThrows = false)
    (hG : ag.engine.cleanupThrows = false)
    (ht : t ≠ "")
    (hg : mapGet r.games t = some g)
    (hp : g.isPlayable = true)
    (hf : g.createGame = some (.ok eng ifc)) :
    createGameInstance (some t) r now =
      ({ r with activeGame := some { gameId := t, game := g, engine := eng,
                                     interface := ifc, createdAt := now } },
       teardownCalls ag ++
         [.dispatched (.gameInstanceCleaned ag.gameId), .factoryInvoked,
          .dispatched (.gameInstanceCreated t)],
       some { gameId := t, game := g, engine := eng, interface := ifc,
              createdAt := now }) ∧
    dispatchedOf (createGameInstance (some t) r now).snd.fst
      = [.gameInstanceCleaned ag.gameId, .gameInstanceCreated t] := by
  have hclean := cleanupActiveGame_no_throw r ag hag hE hI hG
  have hmain : createGameInstance (some t) r now =
      ({ r with activeGame := some { gameId := t, game := g, engine := eng,
                                     interface := ifc, createdAt := now } },
       teardownCalls ag ++
         [.dispatched (.gameInstanceCleaned ag.gameId), .factoryInvoked,
          .dispatched (.gameInstanceCreated t)],
       some { gameId := t, game := g, engine := eng, interface := ifc,
              createdAt := now }) := by
    simp [createGameInstance, jsTruthyOpt, ht, hg, hp, hf, hag, hclean]
  refine ⟨hmain, ?_⟩
  have h0 := dispatchedOf_teardownCalls ag
  rw [hmain]
  simp only [dispatchedOf] at h0 ⊢
  simp [List.filterMap_append, h0]

/-- A playable catalog descriptor whose factory yields a valid
engine/interface pair. -/
def gameGood : Game :=
  normalizeGame
    { id := "g", name := "Good", description := none, isPlayable := true,
      players := none, difficulty := none, estimatedTime := none,
      category := none, createGame := some (.ok engOk ifcIdle) } 0

/-- A registry holding the playable "g" and an active old instance. -/
def c3wreg : Registry :=
  { games := [("g", gameGood)], selectedGameId := none,
    activeGame := some agOld }

/-- Witness for C3's amended theorem: creating "g" over the active old
instance dispatches exactly `gameInstanceCleaned "old"` then
`gameInstanceCreated "g"`. -/
theorem C3_cleaned_then_created_witness :
    dispatchedOf (createGameInstance (some "g") c3wreg 7).snd.fst
      = [.gameInstanceCleaned "old", .gameInstanceCreated "g"] :=
  (C3_cleaned_then_created c3wreg "g" gameGood engOk ifcIdle agOld 7
    rfl rfl rfl rfl (by decide) (by decide) rfl rfl).2

/-- A playable catalog descriptor whose factory resolves to null. -/
def gameNullFac : Game :=
  normalizeGame
    { id := "g", name := "NullFactory", description := none,
      isPlayable := true, players := none, difficulty := none,
      estimatedTime := none, category := none,
      createGame := some .nullResult } 0

/-- A registry selecting the null-factory game while an old instance with
well-behaved teardown is active. -/
def c7reg : Registry :=
  { games := [("g", gameNullFac)], selectedGameId := some "g",
    activeGame := some agOld }

/-- C7, counterexample.  The claim says a failed `createGameInstance` attempt
rolls the registry's instance state back to what it was before the attempt.
With an instance active and a factory that resolves to null, the call returns
null but the old instance has already been torn down: `activeGame` ends up
null, not the pre-call instance — the state is not restored. -/
theorem C7_failed_creation_not_rolled_back_counterexample :
    (createGameInstance none c7reg 9).snd.snd = none ∧
    (createGameInstance none c7reg 9).fst.activeGame = none ∧
    c7reg.activeGame = some agOld ∧
    (createGameInstance none c7reg 9).fst.activeGame ≠ c7reg.activeGame := by
  refine ⟨by decide, by decide, rfl, by decide⟩

theorem cleanupActiveGame_activeGame (r : Registry) :
    (cleanupActiveGame r).fst.activeGame = none ∨ (cleanupActiveGame r).fst = r := by
  unfold cleanupActiveGame
  cases hag : r.activeGame with
  | none => right; rfl
  | some ag =>
      by_cases h1 : ag.interface.isActive && ag.interface.endSessionThrows
      · right; simp [h1]
      · by_cases h2 : ag.interface.hasCleanup && ag.interface.cleanupThrows
        · right; simp [h1, h2]
        · by_cases h3 : ag.engine.hasCleanup && ag.engine.cleanupThrows
          · right; simp [h1, h2, h3]
          · left; simp [h1, h2, h3]

/-- C7, amended.  For every `createGameInstance` call whose target descriptor
is playable with a factory that throws, resolves to null, or resolves to an
object missing `engine` or `interface`: the call returns null and the failed
attempt never installs a new active instance — afterwards `activeGame` is
either null (the prior instance, if any, was already torn down rather than
restored) or exactly the instance that was active before the call (when a
throwing teardown step left it in place); it is never a partially-constructed
new instance. -/
theorem C7_failed_creation_no_partial_instance (r : Registry) (t : String)
    (g : Game) (fres : FactoryResult) (now : Nat)
    (ht : t ≠ "") (hg : mapGet r.games t = some g) (hp : g.isPlayable = true)
    (hf : g.createGame = some fres)
    (hbad : ∀ eng ifc, fres ≠ .ok eng ifc) :
    (createGameInstance (some t) r now).snd.snd = none ∧
    ((createGameInstance (some t) r now).fst.activeGame = none ∨
      (createGameInstance (some t) r now).fst.activeGame = r.activeGame) := by
  have hslot : ∀ c : Registry × List TraceItem,
      (c = if r.activeGame.isSome then cleanupActiveGame r else (r, [])) →
      (c.fst.activeGame = none ∨ c.fst.activeGame = r.activeGame) := by
    intro c hc
    cases hs : r.activeGame.isSome with
    | true =>
        rw [hc, if_pos hs]
        rcases cleanupActiveGame_activeGame r with h | h
        · exact Or.inl h
        · exact Or.inr (by rw [h])
    | false =>
        rw [hc, if_neg (by simp [hs])]
        exact Or.inr rfl
  cases fres with
  | ok eng ifc => exact absurd rfl (hbad eng ifc)
  | throws m =>
      constructor
      · simp [createGameInstance, jsTruthyOpt, ht, hg, hp, hf]
      · have := hslot (if r.activeGame.isSome then cleanupActiveGame r else (r, [])) rfl
        simpa [createGameInstance, jsTruthyOpt, ht, hg, hp, hf] using this
  | nullResult =>
      constructor
      · simp [createGameInstance, jsTruthyOpt, ht, hg, hp, hf]
      · have := hslot (if r.activeGame.isSome then cleanupActiveGame r else (r, [])) rfl
        simpa [createGameInstance, jsTruthyOpt, ht, hg, hp, hf] using this
  | missingEngine =>
      constructor
      · simp [createGameInstance, jsTruthyOpt, ht, hg, hp, hf]
      · have := hslot (if r.activeGame.isSome then cleanupActiveGame r else (r, [])) rfl
        simpa [createGameInstance, jsTruthyOpt, ht, hg, hp, hf] using this
  | missingInterface =>
      constructor
      · simp [createGameInstance, jsTruthyOpt, ht, hg, hp, hf]
      · have := hslot (if r.activeGame.isSome then cleanupActiveGame r else (r, [])) rfl
        simpa [createGameInstance, jsTruthyOpt, ht, hg, hp, hf] using this

/-- Witness for C7's amended theorem on the concrete registry `c7reg`: the
null-factory creation attempt returns null and leaves no partially
constructed instance. -/
theorem C7_failed_creation_no_partial_instance_witness :
    (createGameInstance (some "g") c7reg 9).snd.snd = none ∧
    ((createGameInstance (some "g") c7reg 9).fst.activeGame = none ∨
      (createGameInstance (some "g") c7reg 9).fst.activeGame = c7reg.activeGame) :=
  C7_failed_creation_no_partial_instance c7reg "g" gameNullFac .nullResult 9
    (by decide) (by decide) rfl rfl (fun _ _ h => by cases h)

open SimpleARGameEngine in
theorem processAction_maxObjects (s : GameEngine.Engine) (pid a : String)
    (d : ActionData) (now : Nat) (rnd : String) (rc : Int) :
    (processAction s pid a d now rnd rc).fst.maxObjects = s.maxObjects := by
  by_cases h1 : ¬ GameEngine.validateState s ["playing"]
  · simp [processAction, h1]
  · by_cases h2 : a = "placeObject"
    · by_cases h3 : (s.placedObjects.length : Int) ≥ s.maxObjects
      · simp [processAction, handlePlaceObject, h1, h2, h3]
      · simp [processAction, handlePlaceObject, h1, h2, h3]
    · by_cases h4 : a = "removeObject"
      · cases hf : s.placedObjects.find? (fun o => some o.id = d.objectId) <;>
          simp [processAction, handleRemoveObject, h1, h2, h4, hf]
      · simp [processAction, h1, h2, h4]

open SimpleARGameEngine in
theorem addPlayer_maxObjects (s : GameEngine.Engine) (pid : String)
    (attrs : List (String × String)) (now : Nat) :
    (GameEngine.addPlayer s pid attrs now).fst.maxObjects = s.maxObjects := by
  cases hf : s.players.find? (fun p => p.id = pid) <;>
    simp [GameEngine.addPlayer, hf]

open SimpleARGameEngine in
theorem removePlayer_maxObjects (s : GameEngine.Engine) (pid : String)
    (now : Nat) :
    (GameEngine.removePlayer s pid now).fst.maxObjects = s.maxObjects := by
  cases hf : s.players.find? (fun p => p.id = pid) <;>
    simp [GameEngine.removePlayer, hf]

open SimpleARGameEngine in
theorem reachable_maxObjects_ne_zero {e : GameEngine.Engine}
    (h : Reachable e) : e.maxObjects ≠ 0 := by
  induction h with
  | ctor => simp [mk]
  | @init cfg now e0 _ _ =>
      have hm : (initializeGame cfg e0 now).fst.maxObjects = jsOrInt cfg.maxObjects 10 := by
        simp [initializeGame, GameEngine.setState]
      rw [hm]
      unfold jsOrInt
      cases cfg.maxObjects with
      | none => simp
      | some v => by_cases hv : v = 0 <;> simp [hv]
  | act pid a d now rnd rc _ ih => rw [processAction_maxObjects]; exact ih
  | add pid attrs now _ ih => rw [addPlayer_maxObjects]; exact ih
  | rem pid now _ ih => rw [removePlayer_maxObjects]; exact ih
  | clean now _ ih => exact ih
  | deser snap now _ =>
      by_cases hz : snap.maxObjects = 0 <;> simp [deserializeState, hz]
  | setSt ns now _ ih => exact ih
  | obs cb _ ih => exact ih

/-- C9.  For every reachable state of the concrete SimpleARGameEngine,
`serializeState()` followed by `deserializeState()` on the resulting snapshot
reproduces the player roster, the placed objects, `maxObjects` and the game
state.  (Reachability matters: every path that sets `maxObjects` guards it
with `|| 10`, so it is never the falsy 0 that `deserializeState` would turn
into 10.) -/
theorem C9_serialize_roundtrip (e : GameEngine.Engine)
    (h : SimpleARGameEngine.Reachable e) (now : Nat) :
    (SimpleARGameEngine.deserializeState e
        (SimpleARGameEngine.serializeState e) now).fst.players = e.players ∧
    (SimpleARGameEngine.deserializeState e
        (SimpleARGameEngine.serializeState e) now).fst.placedObjects
      = e.placedObjects ∧
    (SimpleARGameEngine.deserializeState e
        (SimpleARGameEngine.serializeState e) now).fst.maxObjects
      = e.maxObjects ∧
    (SimpleARGameEngine.deserializeState e
        (SimpleARGameEngine.serializeState e) now).fst.gameState
      = e.gameState := by
  have hm := reachable_maxObjects_ne_zero h
  refine ⟨rfl, rfl, ?_, rfl⟩
  simp [SimpleARGameEngine.deserializeState, SimpleARGameEngine.serializeState, hm]

/-- Witness for C9 at the freshly constructed SimpleARGameEngine. -/
theorem C9_serialize_roundtrip_witness :
    (SimpleARGameEngine.deserializeState SimpleARGameEngine.mk
        (SimpleARGameEngine.serializeState SimpleARGameEngine.mk) 3).fst.players
      = SimpleARGameEngine.mk.players ∧
    (SimpleARGameEngine.deserializeState SimpleARGameEngine.mk
        (SimpleARGameEngine.serializeState SimpleARGameEngine.mk) 3).fst.placedObjects
      = SimpleARGameEngine.mk.placedObjects ∧
    (SimpleARGameEngine.deserializeState SimpleARGameEngine.mk
        (SimpleARGameEngine.serializeState SimpleARGameEngine.mk) 3).fst.maxObjects
      = SimpleARGameEngine.mk.maxObjects ∧
    (SimpleARGameEngine.deserializeState SimpleARGameEngine.mk
        (SimpleARGameEngine.serializeState SimpleARGameEngine.mk) 3).fst.gameState
      = SimpleARGameEngine.mk.gameState :=
  C9_serialize_roundtrip SimpleARGameEngine.mk SimpleARGameEngine.Reachable.ctor 3

theorem length_eraseP_le {α : Type} (l : List α) (p : α → Bool) :
    (l.eraseP p).length ≤ l.length := by
  induction l with
  | nil => simp
  | cons x xs ih =>
      by_cases h : p x <;> simp [List.eraseP_cons, h] <;> omega

open SimpleARGameEngine in
theorem processAction_length_le (s : GameEngine.Engine) (pid a : String)
    (d : ActionData) (now : Nat) (rnd : String) (rc : Int)
    (hinv : (s.placedObjects.length : Int) ≤ s.maxObjects) :
    ((processAction s pid a d now rnd rc).fst.placedObjects.length : Int)
      ≤ s.maxObjects := by
  by_cases h1 : ¬ GameEngine.validateState s ["playing"]
  · simpa [processAction, h1] using hinv
  · by_cases h2 : a = "placeObject"
    · by_cases h3 : (s.placedObjects.length : Int) ≥ s.maxObjects
      · simpa [processAction, handlePlaceObject, h1, h2, h3] using hinv
      · have hlt : (s.placedObjects.length : Int) < s.maxObjects := lt_of_not_ge h3
        simp [processAction, handlePlaceObject, h1, h2, h3]
        omega
    · by_cases h4 : a = "removeObject"
      · cases hf : s.placedObjects.find? (fun o => some o.id = d.objectId) with
        | none => simpa [processAction, handleRemoveObject, h1, h2, h4, hf] using hinv
        | some obj =>
            have hle := length_eraseP_le s.placedObjects
              (fun o => some o.id = d.objectId)
            simp [processAction, handleRemoveObject, h1, h2, h4, hf]
            omega
      · simpa [processAction, h1, h2, h4] using hinv

open SimpleARGameEngine in
theorem runActions_inv (calls : List ActionCall) :
    ∀ e : GameEngine.Engine,
      (e.placedObjects.length : Int) ≤ e.maxObjects →
      ((runActions e calls).placedObjects.length : Int) ≤ e.maxObjects ∧
      (runActions e calls).maxObjects = e.maxObjects := by
  induction calls with
  | nil => intro e he; exact ⟨he, rfl⟩
  | cons c cs ih =>
      intro e he
      have hstep := processAction_length_le e c.playerId c.action c.data
        c.now c.rnd c.rndColor he
      have hmax := processAction_maxObjects e c.playerId c.action c.data
        c.now c.rnd c.rndColor
      have hrec := ih (processAction e c.playerId c.action c.data
        c.now c.rnd c.rndColor).fst (by rw [hmax]; exact hstep)
      refine ⟨?_, ?_⟩
      · calc ((runActions e (c :: cs)).placedObjects.length : Int)
            = ((runActions (processAction e c.playerId c.action c.data
                c.now c.rnd c.rndColor).fst cs).placedObjects.length : Int) := by
              simp [runActions, List.foldl]
          _ ≤ (processAction e c.playerId c.action c.data
                c.now c.rnd c.rndColor).fst.maxObjects := hrec.1
          _ = e.maxObjects := hmax
      · calc (runActions e (c :: cs)).maxObjects
            = (runActions (processAction e c.playerId c.action c.data
                c.now c.rnd c.rndColor).fst cs).maxObjects := by
              simp [runActions, List.foldl]
          _ = _ := hrec.2
          _ = e.maxObjects := hmax

/-- C10.  The capacity invariant of SimpleARGameEngine: `initializeGame`
empties `placedObjects`; every sequence of `processAction` calls preserves
`placedObjects.length <= maxObjects` (and never changes `maxObjects`); and a
`placeObject` action issued when the length has reached `maxObjects` returns
false and changes nothing. -/
theorem C10_maxObjects_invariant (e : GameEngine.Engine)
    (calls : List SimpleARGameEngine.ActionCall) (pid : String)
    (d : SimpleARGameEngine.ActionData) (now : Nat) (rnd : String) (rc : Int)
    (cfg : SimpleARGameEngine.InitConfig) (s0 : GameEngine.Engine) (n0 : Nat)
    (hinv : (e.placedObjects.length : Int) ≤ e.maxObjects) :
    (((SimpleARGameEngine.runActions e calls).placedObjects.length : Int)
        ≤ e.maxObjects ∧
      (SimpleARGameEngine.runActions e calls).maxObjects = e.maxObjects) ∧
    ((e.placedObjects.length : Int) ≥ e.maxObjects →
        SimpleARGameEngine.processAction e pid "placeObject" d now rnd rc
          = (e, [], false)) ∧
    (SimpleARGameEngine.initializeGame cfg s0 n0).fst.placedObjects = [] := by
  refine ⟨runActions_inv calls e hinv, ?_, ?_⟩
  · intro hcap
    by_cases h1 : ¬ GameEngine.validateState e ["playing"]
    · simp [SimpleARGameEngine.processAction, h1]
    · simp [SimpleARGameEngine.processAction, SimpleARGameEngine.handlePlaceObject,
            h1, hcap]
  · simp [SimpleARGameEngine.initializeGame, GameEngine.setState]

/-- A concrete engine at capacity (`maxObjects = 0`, no placed objects) in the
`playing` state. -/
def c10engine : GameEngine.Engine :=
  { gameId := "simple-ar", gameState := "playing", observers := [],
    players := [], currentPlayer := none, gameData := [],
    placedObjects := [], maxObjects := 0 }

/-- Witness for C10 on `c10engine`: one `placeObject` call at capacity leaves
the length bounded, and directly returns false at capacity. -/
theorem C10_maxObjects_invariant_witness :
    (((SimpleARGameEngine.runActions c10engine
          [{ playerId := "p", action := "placeObject",
             data := { position := none, objType := none, color := none,
                       objectId := none },
             now := 1, rnd := "r", rndColor := 3 }]).placedObjects.length : Int)
        ≤ c10engine.maxObjects ∧
      (SimpleARGameEngine.runActions c10engine
          [{ playerId := "p", action := "placeObject",
             data := { position := none, objType := none, color := none,
                       objectId := none },
             now := 1, rnd := "r", rndColor := 3 }]).maxObjects
        = c10engine.maxObjects) ∧
    ((c10engine.placedObjects.length : Int) ≥ c10engine.maxObjects →
        SimpleARGameEngine.processAction c10engine "p" "placeObject"
            { position := none, objType := none, color := none, objectId := none }
            1 "r" 3
          = (c10engine, [], false)) ∧
    (SimpleARGameEngine.initializeGame { maxObjects := some 4 }
        SimpleARGameEngine.mk 2).fst.placedObjects = [] :=
  C10_maxObjects_invariant c10engine
    [{ playerId := "p", action := "placeObject",
       data := { position := none, objType := none, color := none,
                 objectId := none },
       now := 1, rnd := "r", rndColor := 3 }]
    "p" { position := none, objType := none, color := none, objectId := none }
    1 "r" 3 { maxObjects := some 4 } SimpleARGameEngine.mk 2 (by decide)
